import Mathlib

/-!
Shallow embedding of the `weekly-newsletter` repository (market-week).

Conventions of the embedding:
* Python floats are modelled as rationals (`ℚ`); `round(x, d)` is modelled as
  round-half-to-even at `d` decimal places, matching CPython's `round`.
* Python dicts that are iterated in insertion order are modelled as association
  lists `List (String × _)`.
* `list.sort(key=..., reverse=True)` (Timsort, a stable merge sort) is modelled
  by `List.mergeSort` with the corresponding total boolean order.
* Dates (`YYYY-MM-DD` strings parsed with `strptime`) are modelled as integer
  day numbers `ℤ`; the day distance `abs((d - target).days)` becomes
  `(d - target).natAbs`.
* A fixture file on disk is a `Fixture α`: its stem, the result of parsing the
  date out of its stem (`none` models a `ValueError` from `strptime`), and its
  JSON contents.
* Functions that can raise are given explicit result types (`PyResult`,
  `Except`); the caught live-fetch exception is an `Except String` argument.
-/

/-- One OHLCV row of a fixture / yfinance history.  The Python dict key
`"open"` is a Lean keyword, so the field is named `opn`. -/
structure Row where
  opn : ℚ
  high : ℚ
  low : ℚ
  close : ℚ
  deriving DecidableEq

/-- The per-index value of the raw data dict: `{"symbol": ..., "region": ...,
"data": [...]}`.  US index fixtures carry no `region`; it is unused there. -/
structure IndexInfo where
  symbol : String
  region : String
  data : List Row
  deriving DecidableEq

/-- Python `math.floor` on a rational, i.e. `⌊x⌋`. -/
def ratFloor (x : ℚ) : ℤ := ⌊x⌋

/-- Round-half-to-even to the nearest integer: the rounding used by CPython's
builtin `round`. -/
def roundHalfEven (x : ℚ) : ℤ :=
  let f := ratFloor x
  let r := x - (f : ℚ)
  if r < 1 / 2 then f
  else if 1 / 2 < r then f + 1
  else if f % 2 = 0 then f else f + 1

/-- Model of Python `round(x, d)` for a non-negative number of decimals. -/
def roundTo (d : ℕ) (x : ℚ) : ℚ := (roundHalfEven (x * 10 ^ d) : ℚ) / 10 ^ d

/-- Python `max` over a non-empty sequence, given as head and tail. -/
def pyMax (x : ℚ) (xs : List ℚ) : ℚ := xs.foldl max x

/-- Python `min` over a non-empty sequence, given as head and tail. -/
def pyMin (x : ℚ) (xs : List ℚ) : ℚ := xs.foldl min x

/-- One element of the list returned by `process_index_data`. -/
structure IndexPerf where
  name : String
  symbol : String
  close : ℚ
  weekly_pct : ℚ
  week_high : ℚ
  week_low : ℚ
  deriving DecidableEq

/-- One element of the list returned by `process_intl_index_data` (it also
carries the `region`). -/
structure IntlIndexPerf where
  name : String
  symbol : String
  region : String
  close : ℚ
  weekly_pct : ℚ
  week_high : ℚ
  week_low : ℚ
  deriving DecidableEq

/-- One element of the list returned by `process_fx_data`. -/
structure FxPerf where
  name : String
  symbol : String
  rate : ℚ
  weekly_pct : ℚ
  deriving DecidableEq

/-- The body of the `for name, info in raw.items()` loop of
`process_index_data`: `None` models the `continue` on fewer than 2 rows. -/
def indexEntry (p : String × IndexInfo) : Option IndexPerf :=
  match p.2.data with
  | d0 :: d1 :: rest =>
      let first_open := d0.opn
      let last := (d1 :: rest).getLastD d1
      let weekly_pct := ((last.close - first_open) / first_open) * 100
      some
        { name := p.1
          symbol := p.2.symbol
          close := last.close
          weekly_pct := roundTo 2 weekly_pct
          week_high := pyMax d0.high ((d1 :: rest).map Row.high)
          week_low := pyMin d0.low ((d1 :: rest).map Row.low) }
  | _ => none

/-- `process_data.process_index_data`: compute weekly performance per index,
skip series with fewer than 2 rows, sort best-to-worst by `weekly_pct`
(`results.sort(key=..., reverse=True)`, a stable descending sort). -/
def process_index_data (raw : List (String × IndexInfo)) : List IndexPerf :=
  let results := raw.filterMap indexEntry
  results.mergeSort fun a b => decide (b.weekly_pct ≤ a.weekly_pct)

/-- The loop body of `process_intl_index_data` (also records the region). -/
def intlIndexEntry (p : String × IndexInfo) : Option IntlIndexPerf :=
  match p.2.data with
  | d0 :: d1 :: rest =>
      let first_open := d0.opn
      let last := (d1 :: rest).getLastD d1
      let weekly_pct := ((last.close - first_open) / first_open) * 100
      some
        { name := p.1
          symbol := p.2.symbol
          region := p.2.region
          close := last.close
          weekly_pct := roundTo 2 weekly_pct
          week_high := pyMax d0.high ((d1 :: rest).map Row.high)
          week_low := pyMin d0.low ((d1 :: rest).map Row.low) }
  | _ => none

/-- `intl_process_data.process_intl_index_data`. -/
def process_intl_index_data (raw : List (String × IndexInfo)) :
    List IntlIndexPerf :=
  let results := raw.filterMap intlIndexEntry
  results.mergeSort fun a b => decide (b.weekly_pct ≤ a.weekly_pct)

/-- The loop body of `process_fx_data` (the rate is rounded to 6 decimals). -/
def fxEntry (p : String × IndexInfo) : Option FxPerf :=
  match p.2.data with
  | d0 :: d1 :: rest =>
      let first_open := d0.opn
      let last := (d1 :: rest).getLastD d1
      let weekly_pct := ((last.close - first_open) / first_open) * 100
      some
        { name := p.1
          symbol := p.2.symbol
          rate := roundTo 6 last.close
          weekly_pct := roundTo 2 weekly_pct }
  | _ => none

/-- `intl_process_data.process_fx_data`. -/
def process_fx_data (raw : List (String × IndexInfo)) : List FxPerf :=
  let results := raw.filterMap fxEntry
  results.mergeSort fun a b => decide (b.weekly_pct ≤ a.weekly_pct)

/-- A fixture file with stem-prefix already matched by the glob: its name, the
result of parsing its date suffix with `strptime` (`none` = `ValueError`),
and its JSON contents. -/
structure Fixture (α : Type) where
  name : String
  date : Option ℤ
  contents : α
  deriving DecidableEq

/-- Result type of the fetch functions: either a value or a raised
`FileNotFoundError` with its message. -/
inductive PyResult (α : Type) where
  | ok : α → PyResult α
  | fileNotFoundError : String → PyResult α
  deriving DecidableEq

/-- `_find_closest_fixture` (identical in `fetch_data.py` and
`fetch_intl_data.py`): build `(abs day distance, file)` candidates from the
parseable fixtures, return `None` when there are none, else sort by distance
and take the first. -/
def findClosestFixture {α : Type} (target : ℤ) (fixtures : List (Fixture α)) :
    Option (Fixture α) :=
  let candidates :=
    fixtures.filterMap fun f => f.date.map fun d => ((d - target).natAbs, f)
  if candidates.isEmpty then none
  else ((candidates.mergeSort fun a b => decide (a.1 ≤ b.1)).head?).map Prod.snd

/-- The shared fixture-loading tail of every fetch function: raise
`FileNotFoundError(msg)` when no fixture is found, else return the file's
JSON contents. -/
def loadClosestFixture {α : Type} (target : ℤ) (fixtures : List (Fixture α))
    (msg : String) : PyResult α :=
  match findClosestFixture target fixtures with
  | none => .fileNotFoundError msg
  | some f => .ok f.contents

/-- `fetch_data.fetch_index_data`.  `live` is the outcome of
`_fetch_live_indices(end_date)` (an `error` models any raised exception,
which the source catches and then falls through to the fixture path). -/
def fetch_index_data {α : Type} (live : Except String α)
    (fixtures : List (Fixture α)) (end_date : ℤ) (use_mock : Bool) :
    PyResult α :=
  if use_mock = false then
    match live with
    | .ok d => .ok d
    | .error _ =>
        loadClosestFixture end_date fixtures
          ("No index fixture found near " ++ toString end_date)
  else
    loadClosestFixture end_date fixtures
      ("No index fixture found near " ++ toString end_date)

/-- `fetch_data.fetch_econ_calendar`: always loads from fixtures; the
`use_mock` argument is accepted and ignored. -/
def fetch_econ_calendar {α : Type} (fixtures : List (Fixture α))
    (end_date : ℤ) (_use_mock : Bool) : PyResult α :=
  loadClosestFixture end_date fixtures
    ("No econ calendar fixture found near " ++ toString end_date)

/-- `fetch_intl_data.fetch_intl_index_data`. -/
def fetch_intl_index_data {α : Type} (live : Except String α)
    (fixtures : List (Fixture α)) (end_date : ℤ) (use_mock : Bool) :
    PyResult α :=
  if use_mock = false then
    match live with
    | .ok d => .ok d
    | .error _ =>
        loadClosestFixture end_date fixtures
          ("No international index fixture found near " ++ toString end_date)
  else
    loadClosestFixture end_date fixtures
      ("No international index fixture found near " ++ toString end_date)

/-- `fetch_intl_data.fetch_intl_fx_data`. -/
def fetch_intl_fx_data {α : Type} (live : Except String α)
    (fixtures : List (Fixture α)) (end_date : ℤ) (use_mock : Bool) :
    PyResult α :=
  if use_mock = false then
    match live with
    | .ok d => .ok d
    | .error _ =>
        loadClosestFixture end_date fixtures
          ("No FX fixture found near " ++ toString end_date)
  else
    loadClosestFixture end_date fixtures
      ("No FX fixture found near " ++ toString end_date)

/-- `fetch_intl_data.fetch_intl_econ_calendar`: always loads from fixtures;
`use_mock` is accepted and ignored. -/
def fetch_intl_econ_calendar {α : Type} (fixtures : List (Fixture α))
    (end_date : ℤ) (_use_mock : Bool) : PyResult α :=
  loadClosestFixture end_date fixtures
    ("No international econ calendar fixture found near " ++ toString end_date)

/-- `verify_prices.FRED_MAP`: asset name to FRED series id. -/
def FRED_MAP : List (String × String) :=
  [("Gold", "GOLDAMGBD228NLBM"), ("10Y Treasury", "DGS10")]

/-- `verify_prices.STOOQ_MAP`: asset name to Stooq symbol. -/
def STOOQ_MAP : List (String × String) :=
  [("S&P 500", "^spx"), ("Dow Jones", "^dji"), ("Nasdaq", "^ndq"),
   ("Russell 2000", "^rut"), ("USD Index", "usd")]

/-- `all_assets = list(FRED_MAP.keys()) + list(STOOQ_MAP.keys())`. -/
def allAssets : List String := FRED_MAP.map Prod.fst ++ STOOQ_MAP.map Prod.fst

/-- `verify_prices._get_yf_close`: the most recent close of an asset in the
primary (yfinance) data, `None` when the asset or its data is missing/empty. -/
def get_yf_close (primary : List (String × IndexInfo)) (name : String) :
    Option ℚ :=
  match List.lookup name primary with
  | none => none
  | some asset =>
      match asset.data with
      | [] => none
      | r :: rs => some (((r :: rs).getLastD r).close)

/-- The dedicated error raised by `verify_prices` when sources disagree. -/
structure PriceDiscrepancyError where
  msg : String
  deriving DecidableEq

/-- One iteration of the main loop of `verify_prices` for a given asset name:
`None` when the asset is skipped (missing on either side) or within
tolerance, `some line` when it is appended to `errors`.  The
`if sec_val else 0.0` truthiness guard of the source is kept. -/
def verifyEntry (primary : List (String × IndexInfo))
    (secondary : String → Option ℚ) (tolerance_pct : ℚ) (name : String) :
    Option String :=
  match get_yf_close primary name, secondary name with
  | some yf_val, some sec_val =>
      let diff_pct :=
        if sec_val ≠ 0 then |yf_val - sec_val| / sec_val * 100 else 0
      if tolerance_pct < diff_pct then
        some ("  " ++ name ++ ": yfinance/secondary mismatch")
      else none
  | _, _ => none

/-- The `errors` list accumulated by the main loop of `verify_prices`:
one formatted line per asset whose yfinance/secondary difference exceeds
the tolerance.  `secondary` models the merged `{**fred_results,
**stooq_results}` dict as a partial map. -/
def verifyErrors (primary : List (String × IndexInfo))
    (secondary : String → Option ℚ) (tolerance_pct : ℚ) : List String :=
  allAssets.filterMap (verifyEntry primary secondary tolerance_pct)

/-- `verify_prices.verify_prices`: raises `PriceDiscrepancyError` exactly when
the `errors` list is non-empty, otherwise returns `None`. -/
def verify_prices (primary : List (String × IndexInfo))
    (secondary : String → Option ℚ) (tolerance_pct : ℚ) :
    Except PriceDiscrepancyError Unit :=
  let errors := verifyErrors primary secondary tolerance_pct
  if errors.isEmpty then .ok ()
  else
    .error ⟨"Price discrepancy exceeds tolerance:\n"
      ++ String.intercalate "\n" errors
      ++ "\nInvestigate the discrepancy and re-run."⟩

/-- Does the character list start with the pattern?  (Helper for Python's
substring test `pat in s`.) -/
def startsWithChars : List Char → List Char → Bool
  | _, [] => true
  | [], _ :: _ => false
  | c :: cs, p :: ps => c == p && startsWithChars cs ps

/-- Does the character list contain the pattern as a contiguous run? -/
def hasSubChars (pat : List Char) : List Char → Bool
  | [] => pat.isEmpty
  | c :: tl => startsWithChars (c :: tl) pat || hasSubChars pat tl

/-- Python's `pat in s` substring test on strings. -/
def containsSub (s pat : String) : Bool := hasSubChars pat.data s.data

/-- Left-pad a digit string with zeros to width `d`. -/
def padZeros (d : ℕ) (s : String) : String :=
  if s.length < d then String.mk (List.replicate (d - s.length) '0') ++ s
  else s

/-- Insert a thousands separator into a reversed digit list (`k` counts the
digits already consumed). -/
def commaRev : List Char → ℕ → List Char
  | [], _ => []
  | c :: cs, k =>
      if k % 3 = 0 ∧ k ≠ 0 then ',' :: c :: commaRev cs (k + 1)
      else c :: commaRev cs (k + 1)

/-- Group a digit string with commas every three digits (Python's `,` format
option). -/
def groupDigits (s : String) : String :=
  String.mk (commaRev s.data.reverse 0).reverse

/-- Shared body of the `.2f`-style format specs: round to `d` decimals, print
sign, integer part (optionally comma-grouped) and `d` fractional digits. -/
def formatFixedCore (d : ℕ) (comma : Bool) (x : ℚ) : String :=
  let scaled := roundHalfEven (x * 10 ^ d)
  let m := scaled.natAbs
  let ip := m / 10 ^ d
  let fp := m % 10 ^ d
  let ipStr := if comma then groupDigits (toString ip) else toString ip
  let sign := if scaled < 0 then "-" else ""
  if d = 0 then sign ++ ipStr
  else sign ++ ipStr ++ "." ++ padZeros d (toString fp)

/-- Python format spec `.df` (e.g. `f"{x:.2f}"`). -/
def formatFixed (d : ℕ) (x : ℚ) : String := formatFixedCore d false x

/-- Python format spec `+.df` (e.g. `f"{x:+.2f}"`): an explicit sign. -/
def formatSigned (d : ℕ) (x : ℚ) : String :=
  if roundHalfEven (x * 10 ^ d) < 0 then formatFixedCore d false x
  else "+" ++ formatFixedCore d false x

/-- Python format spec `,.df` (e.g. `f"{x:,.2f}"`): comma-grouped. -/
def formatCommaFixed (d : ℕ) (x : ℚ) : String := formatFixedCore d true x

/-- Decimal expansion of a fractional part `0 ≤ r < 1`, at most `n` digits. -/
def fracStr : ℕ → ℚ → String
  | 0, _ => ""
  | n + 1, r =>
      if r = 0 then ""
      else
        let r10 := r * 10
        let d := ratFloor r10
        toString d.natAbs ++ fracStr n (r10 - (d : ℚ))

/-- Model of Python `str()` on a number (`f"{x}"`). -/
def pyStr (x : ℚ) : String :=
  let sign := if x < 0 then "-" else ""
  let m := |x|
  let ip := (ratFloor m).natAbs
  let frac := m - ((ratFloor m : ℤ) : ℚ)
  if frac = 0 then sign ++ toString ip
  else sign ++ toString ip ++ "." ++ fracStr 17 frac

/-- Model of Python format spec `,` (`"{x:,}"`): comma-grouped `str()`. -/
def pyStrComma (x : ℚ) : String :=
  let sign := if x < 0 then "-" else ""
  let m := |x|
  let ip := (ratFloor m).natAbs
  let frac := m - ((ratFloor m : ℤ) : ℚ)
  if frac = 0 then sign ++ groupDigits (toString ip)
  else sign ++ groupDigits (toString ip) ++ "." ++ fracStr 17 frac

/-- One economic-calendar event.  Keys the source reads with `.get` and a
default (`surprise`, `unit`, `importance`) are modelled as always-present
fields whose value is the default when the JSON omits them. -/
structure EconEvent where
  event : String
  date : String
  actual : ℚ
  expected : ℚ
  unit : String
  surprise : String
  importance : ℕ
  deriving DecidableEq

/-- The economic-calendar dict: `past_week` and `upcoming_week` lists. -/
structure Econ where
  past_week : List EconEvent
  upcoming_week : List EconEvent
  deriving DecidableEq

/-- `process_data.generate_narrative`: the three-paragraph US summary. -/
def generate_narrative (index_data : List IndexPerf) (econ : Econ) : String :=
  match index_data with
  | [] => "Markets were closed this week."
  | i0 :: irest =>
    let index_data := i0 :: irest
    let best := i0
    let worst := index_data.getLastD i0
    let up_count := index_data.countP fun i => decide (0 < i.weekly_pct)
    let down_count := index_data.length - up_count
    let gold := index_data.find? fun i => i.name == "Gold"
    let treasury := index_data.find? fun i => containsSub i.name "Treasury"
    let usd := index_data.find? fun i => i.name == "USD Index"
    let tone :=
      if up_count = index_data.length then
        "Markets rallied across the board this week"
      else if down_count = index_data.length then
        "It was a rough week across the board"
      else if down_count < up_count then
        "Most markets posted gains this week"
      else
        "Markets were mixed this week"
    let para1 :=
      tone ++ ", with " ++ best.name ++ " leading at "
        ++ formatSigned 2 best.weekly_pct ++ "% and " ++ worst.name
        ++ " lagging at " ++ formatSigned 2 worst.weekly_pct ++ "%."
    let safe_haven_notes :=
      (match gold with
       | some g =>
           ["Gold " ++ (if 0 < g.weekly_pct then "climbing" else "slipping")
             ++ " " ++ formatFixed 2 (abs g.weekly_pct) ++ "% to $"
             ++ formatCommaFixed 2 g.close]
       | none => []) ++
      (match treasury with
       | some t =>
           ["the 10-year yield "
             ++ (if 0 < t.weekly_pct then "rising" else "falling")
             ++ " to " ++ formatFixed 2 t.close ++ "%"]
       | none => []) ++
      (match usd with
       | some u =>
           ["the dollar "
             ++ (if 0 < u.weekly_pct then "strengthening" else "weakening")
             ++ " " ++ formatFixed 2 (abs u.weekly_pct) ++ "% to "
             ++ formatFixed 2 u.close]
       | none => [])
    let para1 :=
      if safe_haven_notes.isEmpty then para1
      else para1 ++ " On the safe-haven front, "
        ++ String.intercalate " while " safe_haven_notes ++ "."
    let past := econ.past_week
    let surprises :=
      past.filter fun e => e.surprise == "above" || e.surprise == "below"
    let para2 :=
      match surprises with
      | [] => "It was a quiet week on the data front, with no major surprises."
      | _ :: _ =>
        let drivers := surprises.map fun e =>
          if e.surprise == "above" then
            e.event ++ " came in above expectations (" ++ pyStr e.actual
              ++ e.unit ++ " vs. " ++ pyStr e.expected ++ e.unit ++ ")"
          else
            e.event ++ " came in below expectations (" ++ pyStr e.actual
              ++ e.unit ++ " vs. " ++ pyStr e.expected ++ e.unit ++ ")"
        let p := "The macro picture was busy. "
          ++ String.intercalate ". " drivers ++ "."
        let has_hot_cpi := surprises.any fun e =>
          containsSub e.event.toLower "cpi" && e.surprise == "above"
        let has_strong_retail := surprises.any fun e =>
          containsSub e.event.toLower "retail" && e.surprise == "above"
        if has_hot_cpi && has_strong_retail then
          p ++ " The combination of hot inflation and strong consumer spending paints a picture of an economy that\x27s running warm -- good for earnings, but it keeps rate cuts off the table for now."
        else if has_hot_cpi then
          p ++ " Sticky inflation remains the story to watch heading into next week."
        else if has_strong_retail then
          p ++ " Consumer strength is encouraging, but watch whether it feeds through to prices."
        else p
    let upcoming := econ.upcoming_week
    let high_importance := upcoming.filter fun e => decide (3 ≤ e.importance)
    let para3 :=
      match high_importance with
      | [] =>
        "Next week\x27s calendar is lighter -- a good time to review positions and rebalance."
      | _ :: _ =>
        "Looking ahead, the key events to watch are: "
          ++ String.intercalate ", " (high_importance.map EconEvent.event)
          ++ ". Position sizing and hedges should reflect the potential for volatility around these releases."
    para1 ++ "\n\n" ++ para2 ++ "\n\n" ++ para3

/-- `process_data.generate_positioning_tips`: rule-based tips collected in
source order (USD rule, past-week rules per event, upcoming-week rules per
event), with a fallback tip when no rule fired.  The Python default
`index_data=None` and an empty list behave identically (both falsy). -/
def generate_positioning_tips (econ : Econ) (index_data : List IndexPerf) :
    List String :=
  let past := econ.past_week
  let upcoming := econ.upcoming_week
  let usdTips :=
    if index_data.isEmpty then []
    else
      match index_data.find? fun i => i.name == "USD Index" with
      | some usd =>
          if (0.5 : ℚ) ≤ |usd.weekly_pct| then
            if 0 < usd.weekly_pct then
              ["USD Index strengthened " ++ formatSigned 2 usd.weekly_pct
                ++ "% this week -- a stronger dollar weighs on multinational earnings and commodities. Consider reducing exposure to export-heavy sectors and commodity ETFs (GLD, DJP)."]
            else
              ["USD Index weakened " ++ formatSigned 2 usd.weekly_pct
                ++ "% this week -- a softer dollar is a tailwind for emerging markets (EEM, VWO) and commodities (GLD, DJP). Consider tilting toward international and commodity exposure."]
          else []
      | none => []
  let pastTips := (past.map fun event =>
    let name := event.event.toLower
    let surprise := event.surprise
    (if containsSub name "cpi" && !containsSub name "core"
        && surprise == "above" then
      ["CPI came in hot at " ++ pyStr event.actual ++ event.unit ++ " vs. "
        ++ pyStr event.expected ++ event.unit
        ++ " expected -- inflation-sensitive sectors may see pressure. Consider TIPS (TIP) or defensive tilts (XLU, XLP)."]
     else []) ++
    (if containsSub name "retail sales" && surprise == "above" then
      ["Retail sales surprised to the upside (" ++ pyStr event.actual
        ++ event.unit ++ " vs. " ++ pyStr event.expected ++ event.unit
        ++ ") -- consumer discretionary (XLY) and cyclicals may benefit."]
     else []) ++
    (if containsSub name "jobless claims" && surprise == "below" then
      ["Jobless claims came in lower than expected (" ++ pyStrComma event.actual
        ++ " vs. " ++ pyStrComma event.expected
        ++ ") -- labor market remains tight, supporting risk-on positioning."]
     else []) ++
    (if containsSub name "services pmi" && surprise == "below" then
      ["Services PMI missed at " ++ pyStr event.actual ++ " vs. "
        ++ pyStr event.expected
        ++ " expected -- services sector contraction is a caution signal. Consider trimming consumer discretionary (XLY) and adding defensives (XLP, XLU)."]
     else []) ++
    (if containsSub name "housing starts" && surprise == "below" then
      ["Housing Starts missed at " ++ pyStr event.actual ++ event.unit
        ++ " vs. " ++ pyStr event.expected ++ event.unit
        ++ " -- affordability pressure weighs on homebuilders (ITB, XHB). Watch mortgage rate trajectory before adding real estate exposure."]
     else [])).flatten
  let upcomingTips := (upcoming.map fun event =>
    let name := event.event.toLower
    (if containsSub name "fomc" then
      ["FOMC Meeting Minutes drop " ++ event.date
        ++ " -- expect volatility. Consider trimming position sizes or hedging with VIX calls."]
     else []) ++
    (if containsSub name "pmi" && containsSub name "manufacturing" then
      ["Flash Manufacturing PMI on " ++ event.date
        ++ " -- a key read on factory activity. Watch industrials (XLI) for directional cues."]
     else []) ++
    (if containsSub name "pce" then
      ["PCE Price Index on " ++ event.date
        ++ " -- the Fed\x27s preferred inflation gauge. A hot print could reprice rate-cut expectations; consider hedging bond duration (TLT) and adding inflation protection (TIPS, GLD)."]
     else []) ++
    (if containsSub name "gdp" then
      ["GDP release on " ++ event.date
        ++ " -- a weak print could shift sentiment toward defensives (XLU, XLP); a strong beat supports risk-on positioning in cyclicals (XLY, XLI)."]
     else [])).flatten
  let tips := usdTips ++ pastTips ++ upcomingTips
  if tips.isEmpty then
    ["No strong macro signals this week -- maintain current allocations."]
  else tips

/-- `intl_process_data.FX_FRIENDLY`: human-readable names for FX pairs. -/
def FX_FRIENDLY : List (String × String) :=
  [("EUR/USD", "the Euro"), ("GBP/USD", "the British Pound"),
   ("JPY/USD", "the Japanese Yen"), ("AUD/USD", "the Australian Dollar"),
   ("CHF/USD", "the Swiss Franc")]

/-- `intl_process_data._join_list`: comma-join with `and` before the last. -/
def _join_list (items : List String) : String :=
  match items with
  | [] => ""
  | [a] => a
  | [a, b] => a ++ " and " ++ b
  | _ => String.intercalate ", " items.dropLast ++ ", and " ++ items.getLastD ""

/-- `intl_process_data.generate_intl_narrative`: the three-paragraph
international summary. -/
def generate_intl_narrative (index_data : List IntlIndexPerf)
    (fx_data : List FxPerf) (econ : Econ) : String :=
  match index_data with
  | [] => "International markets were closed this week."
  | i0 :: irest =>
    let index_data := i0 :: irest
    let best := i0
    let worst := index_data.getLastD i0
    let up_count := index_data.countP fun i => decide (0 < i.weekly_pct)
    let down_count := index_data.length - up_count
    let tone :=
      if up_count = index_data.length then
        "Global markets rallied broadly this week"
      else if down_count = index_data.length then
        "It was a difficult week across international markets"
      else if down_count < up_count then
        "International markets posted mostly gains this week"
      else
        "International markets were mixed this week"
    let para1 :=
      tone ++ ", with " ++ best.name ++ " (" ++ best.region ++ ") leading at "
        ++ formatSigned 2 best.weekly_pct ++ "% and " ++ worst.name ++ " ("
        ++ worst.region ++ ") lagging at " ++ formatSigned 2 worst.weekly_pct
        ++ "%."
    let europe := index_data.filter fun i => i.region == "Europe"
    let apac := index_data.filter fun i => i.region == "Asia-Pacific"
    let em := index_data.filter fun i => i.region == "Emerging Markets"
    let region_notes :=
      (match europe with
       | [] => []
       | _ :: _ =>
         let avg_eu :=
           (europe.map IntlIndexPerf.weekly_pct).sum / (europe.length : ℚ)
         ["European indices "
           ++ (if 0 < avg_eu then "outperformed" else "underperformed")
           ++ " on average (" ++ formatSigned 2 avg_eu ++ "%)"]) ++
      (match apac with
       | [] => []
       | _ :: _ =>
         let avg_ap :=
           (apac.map IntlIndexPerf.weekly_pct).sum / (apac.length : ℚ)
         ["Asia-Pacific " ++ (if 0 < avg_ap then "led" else "lagged") ++ " ("
           ++ formatSigned 2 avg_ap ++ "% average)"]) ++
      (match em with
       | [] => []
       | e0 :: _ =>
         ["Emerging Markets (MSCI EM) moved " ++ formatSigned 2 e0.weekly_pct
           ++ "%"])
    let para1 :=
      if region_notes.isEmpty then para1
      else para1 ++ " " ++ String.intercalate "; " region_notes ++ "."
    let fx_notes := fx_data.filterMap fun fx =>
      if (0.3 : ℚ) ≤ |fx.weekly_pct| then
        some ((List.lookup fx.name FX_FRIENDLY).getD fx.name ++ " "
          ++ (if 0 < fx.weekly_pct then "strengthened" else "weakened")
          ++ " " ++ formatFixed 2 (abs fx.weekly_pct) ++ "%")
      else none
    let para1 :=
      if fx_notes.isEmpty then para1
      else para1 ++ " On the FX front, " ++ _join_list fx_notes
        ++ ", all against the USD."
    let past := econ.past_week
    let surprises :=
      past.filter fun e => e.surprise == "above" || e.surprise == "below"
    let para2 :=
      match surprises with
      | [] =>
        "It was a quiet week on the international data front, with no major surprises."
      | _ :: _ =>
        let drivers := surprises.map fun e =>
          if e.surprise == "above" then
            e.event ++ " came in above expectations (" ++ pyStr e.actual
              ++ e.unit ++ " vs. " ++ pyStr e.expected ++ e.unit ++ ")"
          else
            e.event ++ " came in below expectations (" ++ pyStr e.actual
              ++ e.unit ++ " vs. " ++ pyStr e.expected ++ e.unit ++ ")"
        let p := "The macro picture was eventful. "
          ++ String.intercalate ". " drivers ++ "."
        let has_hot_cpi := surprises.any fun e =>
          containsSub e.event.toLower "cpi" && e.surprise == "above"
        let has_weak_gdp := surprises.any fun e =>
          containsSub e.event.toLower "gdp" && e.surprise == "below"
        if has_hot_cpi && has_weak_gdp then
          p ++ " The combination of sticky inflation and weak growth (a stagflationary signal) puts central banks in a difficult position and argues for a cautious stance on duration and rate-sensitive sectors."
        else if has_hot_cpi then
          p ++ " Sticky inflation complicates the rate-cut timeline for the relevant central bank. Monitor upcoming policy meetings closely."
        else if has_weak_gdp then
          p ++ " Growth weakness raises the probability of earlier rate cuts, which could be supportive for bond proxies and interest-rate-sensitive sectors."
        else p
    let upcoming := econ.upcoming_week
    let high_importance := upcoming.filter fun e => decide (3 ≤ e.importance)
    let para3 :=
      match high_importance with
      | [] =>
        "Next week\x27s international calendar is lighter, making it a good time to review regional allocations and currency hedging ratios."
      | _ :: _ =>
        "Looking ahead, key events to watch are: "
          ++ String.intercalate ", " (high_importance.map EconEvent.event)
          ++ ". Central bank decisions in particular can drive sharp FX and equity moves; position sizing should reflect that risk."
    para1 ++ "\n\n" ++ para2 ++ "\n\n" ++ para3

/-- `intl_process_data.generate_intl_positioning_tips`: rule-based tips in
source order (FX rules, past-event rules, upcoming-event rules), with a
fallback when nothing fired.  The source also looks up `GBP/USD` but never
uses it, so that binding is omitted here.  The Python defaults
`index_data=None`/`fx_data=None` and empty lists behave identically. -/
def generate_intl_positioning_tips (econ : Econ)
    (_index_data : List IntlIndexPerf) (fx_data : List FxPerf) :
    List String :=
  let past := econ.past_week
  let upcoming := econ.upcoming_week
  let fxTips :=
    if fx_data.isEmpty then []
    else
      let eur := fx_data.find? fun fx => fx.name == "EUR/USD"
      let jpy := fx_data.find? fun fx => fx.name == "JPY/USD"
      let aud := fx_data.find? fun fx => fx.name == "AUD/USD"
      (match eur with
       | some e =>
           if (0.3 : ℚ) ≤ |e.weekly_pct| then
             if e.weekly_pct < 0 then
               ["The Euro weakened " ++ formatFixed 2 (abs e.weekly_pct)
                 ++ "% against the USD: a headwind for unhedged European equity exposure (EFA, FEZ, EWG). Consider currency-hedged alternatives (HEDJ) or reduce European allocation until the Euro stabilises."]
             else
               ["The Euro strengthened " ++ formatFixed 2 (abs e.weekly_pct)
                 ++ "% against the USD: a tailwind for unhedged European equity ETFs (EFA, FEZ, EWG). Currency momentum favours holding unhedged exposure for now."]
           else []
       | none => []) ++
      (match jpy with
       | some j =>
           if (0.3 : ℚ) ≤ |j.weekly_pct| then
             if j.weekly_pct < 0 then
               ["The Japanese Yen weakened " ++ formatFixed 2 (abs j.weekly_pct)
                 ++ "% against the USD: this reduces USD returns on unhedged Japan exposure (EWJ). Watch BOJ policy signals; any rate hike could trigger a sharp Yen reversal."]
             else
               ["The Japanese Yen strengthened "
                 ++ formatFixed 2 (abs j.weekly_pct)
                 ++ "% against the USD: this boosts USD returns on unhedged Japan ETFs (EWJ). Yen strengthening often signals risk-off sentiment; monitor carry-trade unwind risk for EM assets."]
           else []
       | none => []) ++
      (match aud with
       | some a =>
           if (0.3 : ℚ) ≤ |a.weekly_pct| then
             if a.weekly_pct < 0 then
               ["The Australian Dollar weakened "
                 ++ formatFixed 2 (abs a.weekly_pct)
                 ++ "% against the USD: a headwind for unhedged Australian equity exposure (EWA). AUD weakness often tracks commodity prices and China growth sentiment."]
             else []
           else []
       | none => [])
  let pastTips := (past.map fun event =>
    let name := event.event.toLower
    let surprise := event.surprise
    (if containsSub name "uk cpi" && surprise == "above" then
      ["UK CPI came in above expectations (" ++ pyStr event.actual
        ++ event.unit ++ " vs. " ++ pyStr event.expected ++ event.unit
        ++ "): a higher-for-longer BOE rate path is now more likely. GBP may stay supported (positive for FXB), but rate pressure is a headwind for UK rate-sensitive sectors. Watch EWU for near-term volatility around the next BOE meeting."]
     else []) ++
    (if (containsSub name "japan" || containsSub name "japan gdp")
        && containsSub name "gdp" && surprise == "below" then
      ["Japan GDP contracted below expectations (" ++ pyStr event.actual
        ++ event.unit ++ " vs. " ++ pyStr event.expected ++ event.unit
        ++ "): growth weakness reduces the BOJ\x27s appetite for further rate hikes. Consider reducing EWJ near-term; a dovish BOJ would weaken the Yen and compress USD returns on Japan equities."]
     else []) ++
    (if (containsSub name "china" || containsSub name "caixin")
        && containsSub name "pmi" then
      (if surprise == "above" then
        ["China Caixin PMI beat at " ++ pyStr event.actual ++ " vs. "
          ++ pyStr event.expected
          ++ " expected: domestic demand momentum supports EM risk-on positioning. Consider adding exposure via EEM or FXI on dips."]
       else if surprise == "below" then
        ["China PMI missed at " ++ pyStr event.actual ++ " vs. "
          ++ pyStr event.expected
          ++ " expected: growth concerns warrant caution on China-heavy EM exposure (FXI, EEM). Commodity exporters (EWA, EWC) may also face headwinds."]
       else [])
     else []) ++
    (if containsSub name "ecb" && containsSub name "minute" then
      ["ECB Meeting Minutes were released: review the tone for signals on the rate path. A hawkish-leaning ECB supports EUR and could weigh on European bond proxies; a dovish lean favours EFA and FEZ through rate-cut expectations."]
     else [])).flatten
  let upcomingTips := (upcoming.map fun event =>
    let name := event.event.toLower
    (if containsSub name "ecb rate" || containsSub name "ecb policy" then
      ["ECB Rate Decision on " ++ event.date
        ++ ": a key event for EUR and European equities. Reduce position size in EFA, FEZ, EWG ahead of the announcement; a surprise cut or hawkish hold could drive outsized FX and equity moves."]
     else []) ++
    (if containsSub name "boj" then
      ["BOJ Meeting Minutes on " ++ event.date
        ++ ": watch for any YCC or rate-hike signals. A hawkish surprise would likely strengthen the Yen sharply and create volatility in unhedged Japan exposure (EWJ). Carry-trade unwinding could ripple into EM assets."]
     else []) ++
    (if containsSub name "eurozone cpi" || containsSub name "euro cpi" then
      ["Eurozone CPI Flash on " ++ event.date
        ++ ": a hot print would extend the ECB hold and pressure European bond proxies, while a soft print opens the door for H2 rate cuts, supportive of EFA, FEZ, and EUR-denominated duration."]
     else []) ++
    (if containsSub name "boe"
        || (containsSub name "uk" && containsSub name "rate") then
      ["BOE Rate Decision on " ++ event.date
        ++ ": a hawkish hold or hike would support GBP (FXB) but weigh on UK rate-sensitive sectors. Watch EWU for directional cues."]
     else [])).flatten
  let tips := fxTips ++ pastTips ++ upcomingTips
  if tips.isEmpty then
    ["No strong macro signals from international markets this week: maintain current regional allocations."]
  else tips

/-- A small concrete primary-data dict used to exercise `verify_prices` on an
explicit input. -/
def demoPrimary : List (String × IndexInfo) :=
  [("Gold", { symbol := "GC=F", region := "", data := [⟨100, 120, 90, 110⟩] })]

/-- A small concrete secondary-price map used with `demoPrimary`. -/
def demoSecondary : String → Option ℚ :=
  fun name => if name = "Gold" then some 100 else none

/-- A small concrete fixture directory used to exercise the fixture-matching
theorems on explicit inputs. -/
def demoFixtures : List (Fixture ℕ) :=
  [{ name := "indices_2024-01-05", date := some 5, contents := 10 },
   { name := "indices_bad", date := none, contents := 11 },
   { name := "indices_2024-01-01", date := some 1, contents := 12 }]

/-- Membership in the output of `process_index_data` is exactly membership in
the per-series results (sorting permutes, `filterMap` collects). -/
theorem mem_process_index_iff {raw : List (String × IndexInfo)}
    {e : IndexPerf} :
    e ∈ process_index_data raw ↔ ∃ p ∈ raw, indexEntry p = some e := by
  unfold process_index_data
  rw [List.mem_mergeSort, List.mem_filterMap]

/-- Same as `mem_process_index_iff` for the international indices. -/
theorem mem_process_intl_iff {raw : List (String × IndexInfo)}
    {e : IntlIndexPerf} :
    e ∈ process_intl_index_data raw ↔ ∃ p ∈ raw, intlIndexEntry p = some e := by
  unfold process_intl_index_data
  rw [List.mem_mergeSort, List.mem_filterMap]

/-- Same as `mem_process_index_iff` for the FX pairs. -/
theorem mem_process_fx_iff {raw : List (String × IndexInfo)} {e : FxPerf} :
    e ∈ process_fx_data raw ↔ ∃ p ∈ raw, fxEntry p = some e := by
  unfold process_fx_data
  rw [List.mem_mergeSort, List.mem_filterMap]

/-- A merge sort by a descending rational key is pairwise descending. -/
theorem pairwise_desc_mergeSort {α : Type} (key : α → ℚ) (l : List α) :
    List.Pairwise (fun a b => key b ≤ key a)
      (l.mergeSort fun a b => decide (key b ≤ key a)) := by
  have h := @List.sorted_mergeSort α
    (fun a b : α => decide (key b ≤ key a))
    (fun a b c hab hbc => by
      simp only [decide_eq_true_eq] at *
      exact le_trans hbc hab)
    (fun a b => by
      simp only [Bool.or_eq_true, decide_eq_true_eq]
      exact le_total (key b) (key a))
    l
  exact h.imp fun hab => by simpa using hab

/-- A series with fewer than 2 rows contributes no `process_index_data`
entry. -/
theorem indexEntry_eq_none {p : String × IndexInfo}
    (hlen : p.2.data.length < 2) : indexEntry p = none := by
  obtain ⟨nm, sym, reg, data⟩ := p
  rcases data with _ | ⟨d0, _ | ⟨d1, rest⟩⟩
  · rfl
  · rfl
  · exact absurd hlen (by simp [IndexInfo.data])

/-- A series with fewer than 2 rows contributes no `process_intl_index_data`
entry. -/
theorem intlIndexEntry_eq_none {p : String × IndexInfo}
    (hlen : p.2.data.length < 2) : intlIndexEntry p = none := by
  obtain ⟨nm, sym, reg, data⟩ := p
  rcases data with _ | ⟨d0, _ | ⟨d1, rest⟩⟩
  · rfl
  · rfl
  · exact absurd hlen (by simp [IndexInfo.data])

/-- A series with fewer than 2 rows contributes no `process_fx_data` entry. -/
theorem fxEntry_eq_none {p : String × IndexInfo}
    (hlen : p.2.data.length < 2) : fxEntry p = none := by
  obtain ⟨nm, sym, reg, data⟩ := p
  rcases data with _ | ⟨d0, _ | ⟨d1, rest⟩⟩
  · rfl
  · rfl
  · exact absurd hlen (by simp [IndexInfo.data])

/-- A series with at least 2 rows does contribute an entry. -/
theorem indexEntry_isSome {p : String × IndexInfo}
    (hlen : 2 ≤ p.2.data.length) : ∃ e, indexEntry p = some e := by
  obtain ⟨nm, sym, reg, data⟩ := p
  rcases data with _ | ⟨d0, _ | ⟨d1, rest⟩⟩
  · simp [IndexInfo.data] at hlen
  · simp [IndexInfo.data] at hlen
  · exact ⟨_, rfl⟩

/-- A series with at least 2 rows does contribute an international entry. -/
theorem intlIndexEntry_isSome {p : String × IndexInfo}
    (hlen : 2 ≤ p.2.data.length) : ∃ e, intlIndexEntry p = some e := by
  obtain ⟨nm, sym, reg, data⟩ := p
  rcases data with _ | ⟨d0, _ | ⟨d1, rest⟩⟩
  · simp [IndexInfo.data] at hlen
  · simp [IndexInfo.data] at hlen
  · exact ⟨_, rfl⟩

/-- A series with at least 2 rows does contribute an FX entry. -/
theorem fxEntry_isSome {p : String × IndexInfo}
    (hlen : 2 ≤ p.2.data.length) : ∃ e, fxEntry p = some e := by
  obtain ⟨nm, sym, reg, data⟩ := p
  rcases data with _ | ⟨d0, _ | ⟨d1, rest⟩⟩
  · simp [IndexInfo.data] at hlen
  · simp [IndexInfo.data] at hlen
  · exact ⟨_, rfl⟩

/-- The entry built from a series keeps the series name and its
`weekly_pct` is the rounded open-to-close percentage change. -/
theorem indexEntry_spec {p : String × IndexInfo} {e : IndexPerf} {h l : Row}
    (he : indexEntry p = some e) (hh : p.2.data.head? = some h)
    (hl : p.2.data.getLast? = some l) :
    e.name = p.1 ∧
      e.weekly_pct = roundTo 2 ((l.close - h.opn) / h.opn * 100) := by
  obtain ⟨nm, sym, reg, data⟩ := p
  rcases data with _ | ⟨d0, _ | ⟨d1, rest⟩⟩
  · simp [indexEntry] at he
  · simp [indexEntry] at he
  · simp only [IndexInfo.data, List.head?_cons, Option.some.injEq] at hh
    simp only [IndexInfo.data, List.getLast?_cons_cons] at hl
    have hlast : (d1 :: rest).getLastD d1 = l := by
      rw [List.getLastD_eq_getLast?, hl]; rfl
    simp only [indexEntry, Option.some.injEq] at he
    subst he
    subst hh
    exact ⟨rfl, by rw [hlast]⟩

/-- Same as `indexEntry_spec` for international entries. -/
theorem intlIndexEntry_spec {p : String × IndexInfo} {e : IntlIndexPerf}
    {h l : Row} (he : intlIndexEntry p = some e)
    (hh : p.2.data.head? = some h) (hl : p.2.data.getLast? = some l) :
    e.name = p.1 ∧
      e.weekly_pct = roundTo 2 ((l.close - h.opn) / h.opn * 100) := by
  obtain ⟨nm, sym, reg, data⟩ := p
  rcases data with _ | ⟨d0, _ | ⟨d1, rest⟩⟩
  · simp [intlIndexEntry] at he
  · simp [intlIndexEntry] at he
  · simp only [IndexInfo.data, List.head?_cons, Option.some.injEq] at hh
    simp only [IndexInfo.data, List.getLast?_cons_cons] at hl
    have hlast : (d1 :: rest).getLastD d1 = l := by
      rw [List.getLastD_eq_getLast?, hl]; rfl
    simp only [intlIndexEntry, Option.some.injEq] at he
    subst he
    subst hh
    exact ⟨rfl, by rw [hlast]⟩

/-- Same as `indexEntry_spec` for FX entries. -/
theorem fxEntry_spec {p : String × IndexInfo} {e : FxPerf} {h l : Row}
    (he : fxEntry p = some e) (hh : p.2.data.head? = some h)
    (hl : p.2.data.getLast? = some l) :
    e.name = p.1 ∧
      e.weekly_pct = roundTo 2 ((l.close - h.opn) / h.opn * 100) := by
  obtain ⟨nm, sym, reg, data⟩ := p
  rcases data with _ | ⟨d0, _ | ⟨d1, rest⟩⟩
  · simp [fxEntry] at he
  · simp [fxEntry] at he
  · simp only [IndexInfo.data, List.head?_cons, Option.some.injEq] at hh
    simp only [IndexInfo.data, List.getLast?_cons_cons] at hl
    have hlast : (d1 :: rest).getLastD d1 = l := by
      rw [List.getLastD_eq_getLast?, hl]; rfl
    simp only [fxEntry, Option.some.injEq] at he
    subst he
    subst hh
    exact ⟨rfl, by rw [hlast]⟩

/-- An output entry records the name of the series it came from, which had at
least 2 rows. -/
theorem indexEntry_name_len {p : String × IndexInfo} {e : IndexPerf}
    (he : indexEntry p = some e) : e.name = p.1 ∧ 2 ≤ p.2.data.length := by
  obtain ⟨nm, sym, reg, data⟩ := p
  rcases data with _ | ⟨d0, _ | ⟨d1, rest⟩⟩
  · simp [indexEntry] at he
  · simp [indexEntry] at he
  · simp only [indexEntry, Option.some.injEq] at he
    subst he
    exact ⟨rfl, by simp [IndexInfo.data]⟩

/-- Same as `indexEntry_name_len` for international entries. -/
theorem intlIndexEntry_name_len {p : String × IndexInfo} {e : IntlIndexPerf}
    (he : intlIndexEntry p = some e) : e.name = p.1 ∧ 2 ≤ p.2.data.length := by
  obtain ⟨nm, sym, reg, data⟩ := p
  rcases data with _ | ⟨d0, _ | ⟨d1, rest⟩⟩
  · simp [intlIndexEntry] at he
  · simp [intlIndexEntry] at he
  · simp only [intlIndexEntry, Option.some.injEq] at he
    subst he
    exact ⟨rfl, by simp [IndexInfo.data]⟩

/-- Same as `indexEntry_name_len` for FX entries. -/
theorem fxEntry_name_len {p : String × IndexInfo} {e : FxPerf}
    (he : fxEntry p = some e) : e.name = p.1 ∧ 2 ≤ p.2.data.length := by
  obtain ⟨nm, sym, reg, data⟩ := p
  rcases data with _ | ⟨d0, _ | ⟨d1, rest⟩⟩
  · simp [fxEntry] at he
  · simp [fxEntry] at he
  · simp only [fxEntry, Option.some.injEq] at he
    subst he
    exact ⟨rfl, by simp [IndexInfo.data]⟩

/-- C1: for every raw input and every series with at least 2 rows and a
non-zero first open, the `weekly_pct` field produced by `process_index_data`
(and `process_intl_index_data`, `process_fx_data`) for that series equals
`((last close - first open) / first open) * 100` rounded to 2 decimals. -/
theorem weekly_pct_formula :
    (∀ (raw : List (String × IndexInfo)) (name : String) (info : IndexInfo)
        (h l : Row), (name, info) ∈ raw → 2 ≤ info.data.length →
        info.data.head? = some h → info.data.getLast? = some l → h.opn ≠ 0 →
        ∃ e ∈ process_index_data raw, e.name = name ∧
          e.weekly_pct = roundTo 2 ((l.close - h.opn) / h.opn * 100))
    ∧ (∀ (raw : List (String × IndexInfo)) (name : String) (info : IndexInfo)
        (h l : Row), (name, info) ∈ raw → 2 ≤ info.data.length →
        info.data.head? = some h → info.data.getLast? = some l → h.opn ≠ 0 →
        ∃ e ∈ process_intl_index_data raw, e.name = name ∧
          e.weekly_pct = roundTo 2 ((l.close - h.opn) / h.opn * 100))
    ∧ (∀ (raw : List (String × IndexInfo)) (name : String) (info : IndexInfo)
        (h l : Row), (name, info) ∈ raw → 2 ≤ info.data.length →
        info.data.head? = some h → info.data.getLast? = some l → h.opn ≠ 0 →
        ∃ e ∈ process_fx_data raw, e.name = name ∧
          e.weekly_pct = roundTo 2 ((l.close - h.opn) / h.opn * 100)) := by
  refine ⟨?_, ?_, ?_⟩
  · intro raw name info h l hmem hlen hh hl _
    obtain ⟨e, he⟩ := @indexEntry_isSome (name, info) hlen
    obtain ⟨hn, hw⟩ := indexEntry_spec he hh hl
    exact ⟨e, mem_process_index_iff.mpr ⟨(name, info), hmem, he⟩, hn, hw⟩
  · intro raw name info h l hmem hlen hh hl _
    obtain ⟨e, he⟩ := @intlIndexEntry_isSome (name, info) hlen
    obtain ⟨hn, hw⟩ := intlIndexEntry_spec he hh hl
    exact ⟨e, mem_process_intl_iff.mpr ⟨(name, info), hmem, he⟩, hn, hw⟩
  · intro raw name info h l hmem hlen hh hl _
    obtain ⟨e, he⟩ := @fxEntry_isSome (name, info) hlen
    obtain ⟨hn, hw⟩ := fxEntry_spec he hh hl
    exact ⟨e, mem_process_fx_iff.mpr ⟨(name, info), hmem, he⟩, hn, hw⟩

/-- Witness for C1: the formula theorem applied to concrete one-series
inputs for each of the three process functions. -/
theorem weekly_pct_formula_witness :
    (∃ e ∈ process_index_data
        [("SP500", ⟨"^GSPC", "", [⟨100, 120, 90, 105⟩, ⟨105, 130, 95, 110⟩]⟩)],
      e.name = "SP500" ∧
        e.weekly_pct = roundTo 2 (((110 : ℚ) - 100) / 100 * 100))
    ∧ (∃ e ∈ process_intl_index_data
        [("DAX", ⟨"^GDAXI", "Europe", [⟨200, 220, 190, 205⟩, ⟨205, 230, 195, 210⟩]⟩)],
      e.name = "DAX" ∧
        e.weekly_pct = roundTo 2 (((210 : ℚ) - 200) / 200 * 100))
    ∧ (∃ e ∈ process_fx_data
        [("EUR/USD", ⟨"EURUSD=X", "", [⟨1, 2, 1, 1⟩, ⟨1, 2, 1, 2⟩]⟩)],
      e.name = "EUR/USD" ∧
        e.weekly_pct = roundTo 2 (((2 : ℚ) - 1) / 1 * 100)) := by
  refine ⟨?_, ?_, ?_⟩
  · exact weekly_pct_formula.1 _ "SP500"
      ⟨"^GSPC", "", [⟨100, 120, 90, 105⟩, ⟨105, 130, 95, 110⟩]⟩
      ⟨100, 120, 90, 105⟩ ⟨105, 130, 95, 110⟩
      (List.mem_singleton.mpr rfl) (by simp [IndexInfo.data]) rfl rfl
      (by show (100 : ℚ) ≠ 0; norm_num)
  · exact weekly_pct_formula.2.1 _ "DAX"
      ⟨"^GDAXI", "Europe", [⟨200, 220, 190, 205⟩, ⟨205, 230, 195, 210⟩]⟩
      ⟨200, 220, 190, 205⟩ ⟨205, 230, 195, 210⟩
      (List.mem_singleton.mpr rfl) (by simp [IndexInfo.data]) rfl rfl
      (by show (200 : ℚ) ≠ 0; norm_num)
  · exact weekly_pct_formula.2.2 _ "EUR/USD"
      ⟨"EURUSD=X", "", [⟨1, 2, 1, 1⟩, ⟨1, 2, 1, 2⟩]⟩
      ⟨1, 2, 1, 1⟩ ⟨1, 2, 1, 2⟩
      (List.mem_singleton.mpr rfl) (by simp [IndexInfo.data]) rfl rfl
      (by show (1 : ℚ) ≠ 0; norm_num)

/-- C3: the lists returned by `process_index_data`, `process_intl_index_data`
and `process_fx_data` are sorted in descending order of `weekly_pct`. -/
theorem process_outputs_sorted_desc (rawI rawJ rawF : List (String × IndexInfo)) :
    List.Pairwise (fun a b => b.weekly_pct ≤ a.weekly_pct)
      (process_index_data rawI)
    ∧ List.Pairwise (fun a b => b.weekly_pct ≤ a.weekly_pct)
      (process_intl_index_data rawJ)
    ∧ List.Pairwise (fun a b => b.weekly_pct ≤ a.weekly_pct)
      (process_fx_data rawF) := by
  refine ⟨?_, ?_, ?_⟩
  · unfold process_index_data
    exact pairwise_desc_mergeSort IndexPerf.weekly_pct _
  · unfold process_intl_index_data
    exact pairwise_desc_mergeSort IntlIndexPerf.weekly_pct _
  · unfold process_fx_data
    exact pairwise_desc_mergeSort FxPerf.weekly_pct _

/-- C10: the process functions silently drop series with fewer than 2 rows:
every output entry names an input series with at least 2 rows, and if every
series is short the output is empty. -/
theorem short_series_dropped :
    (∀ raw : List (String × IndexInfo),
      (∀ e ∈ process_index_data raw, ∃ p ∈ raw,
          e.name = p.1 ∧ 2 ≤ p.2.data.length)
      ∧ ((∀ p ∈ raw, p.2.data.length < 2) → process_index_data raw = []))
    ∧ (∀ raw : List (String × IndexInfo),
      (∀ e ∈ process_intl_index_data raw, ∃ p ∈ raw,
          e.name = p.1 ∧ 2 ≤ p.2.data.length)
      ∧ ((∀ p ∈ raw, p.2.data.length < 2) → process_intl_index_data raw = []))
    ∧ (∀ raw : List (String × IndexInfo),
      (∀ e ∈ process_fx_data raw, ∃ p ∈ raw,
          e.name = p.1 ∧ 2 ≤ p.2.data.length)
      ∧ ((∀ p ∈ raw, p.2.data.length < 2) → process_fx_data raw = [])) := by
  refine ⟨fun raw => ⟨?_, ?_⟩, fun raw => ⟨?_, ?_⟩, fun raw => ⟨?_, ?_⟩⟩
  · intro e he
    obtain ⟨p, hp, hent⟩ := mem_process_index_iff.mp he
    obtain ⟨hn, hl⟩ := indexEntry_name_len hent
    exact ⟨p, hp, hn, hl⟩
  · intro hall
    unfold process_index_data
    rw [List.filterMap_eq_nil_iff.mpr fun p hp => indexEntry_eq_none (hall p hp)]
    exact List.mergeSort_nil
  · intro e he
    obtain ⟨p, hp, hent⟩ := mem_process_intl_iff.mp he
    obtain ⟨hn, hl⟩ := intlIndexEntry_name_len hent
    exact ⟨p, hp, hn, hl⟩
  · intro hall
    unfold process_intl_index_data
    rw [List.filterMap_eq_nil_iff.mpr
      fun p hp => intlIndexEntry_eq_none (hall p hp)]
    exact List.mergeSort_nil
  · intro e he
    obtain ⟨p, hp, hent⟩ := mem_process_fx_iff.mp he
    obtain ⟨hn, hl⟩ := fxEntry_name_len hent
    exact ⟨p, hp, hn, hl⟩
  · intro hall
    unfold process_fx_data
    rw [List.filterMap_eq_nil_iff.mpr fun p hp => fxEntry_eq_none (hall p hp)]
    exact List.mergeSort_nil

/-- Witness for C10: one-row and zero-row inputs produce empty outputs. -/
theorem short_series_dropped_witness :
    process_index_data [("X", ⟨"x", "", [⟨1, 1, 1, 1⟩]⟩)] = []
    ∧ process_intl_index_data [("Y", ⟨"y", "Europe", [⟨1, 1, 1, 1⟩]⟩)] = []
    ∧ process_fx_data [("Z", ⟨"z", "", []⟩)] = [] := by
  refine ⟨?_, ?_, ?_⟩
  · exact (short_series_dropped.1 _).2 (by
      intro p hp
      rw [List.mem_singleton] at hp
      subst hp
      simp [IndexInfo.data])
  · exact (short_series_dropped.2.1 _).2 (by
      intro p hp
      rw [List.mem_singleton] at hp
      subst hp
      simp [IndexInfo.data])
  · exact (short_series_dropped.2.2 _).2 (by
      intro p hp
      rw [List.mem_singleton] at hp
      subst hp
      simp [IndexInfo.data])

/-- A merge sort ascending on the first (ℕ) component is pairwise
non-decreasing in that component. -/
theorem pairwise_fst_le_mergeSort {β : Type} (l : List (ℕ × β)) :
    List.Pairwise (fun a b => a.1 ≤ b.1)
      (l.mergeSort fun a b => decide (a.1 ≤ b.1)) := by
  have h := @List.sorted_mergeSort (ℕ × β)
    (fun a b : ℕ × β => decide (a.1 ≤ b.1))
    (fun a b c hab hbc => by
      simp only [decide_eq_true_eq] at *
      exact le_trans hab hbc)
    (fun a b => by
      simp only [Bool.or_eq_true, decide_eq_true_eq]
      exact le_total a.1 b.1)
    l
  exact h.imp fun hab => by simpa using hab

/-- C4: whenever some fixture name parses as a date, `_find_closest_fixture`
returns a fixture whose parsed date has minimal absolute day distance to the
requested date among all parseable fixtures. -/
theorem find_closest_fixture_min {α : Type} (target : ℤ)
    (fixtures : List (Fixture α))
    (hne : ∃ f ∈ fixtures, f.date.isSome = true) :
    ∃ fix d, findClosestFixture target fixtures = some fix ∧
      fix ∈ fixtures ∧ fix.date = some d ∧
      ∀ g e, g ∈ fixtures → g.date = some e →
        (d - target).natAbs ≤ (e - target).natAbs := by
  obtain ⟨f0, hf0, hs0⟩ := hne
  obtain ⟨d0, hd0⟩ := Option.isSome_iff_exists.mp hs0
  have hc0 : ((d0 - target).natAbs, f0) ∈
      fixtures.filterMap (fun f => f.date.map fun d => ((d - target).natAbs, f)) :=
    List.mem_filterMap.mpr ⟨f0, hf0, by rw [hd0]; rfl⟩
  have hempty : (fixtures.filterMap
      (fun f => f.date.map fun d => ((d - target).natAbs, f))).isEmpty = false :=
    List.isEmpty_eq_false.mpr (List.ne_nil_of_mem hc0)
  have hsortmem0 : ((d0 - target).natAbs, f0) ∈
      (fixtures.filterMap
        (fun f => f.date.map fun d => ((d - target).natAbs, f))).mergeSort
        (fun a b => decide (a.1 ≤ b.1)) := List.mem_mergeSort.mpr hc0
  cases hsorted : (fixtures.filterMap
      (fun f => f.date.map fun d => ((d - target).natAbs, f))).mergeSort
      (fun a b => decide (a.1 ≤ b.1)) with
  | nil => rw [hsorted] at hsortmem0; simp at hsortmem0
  | cons c tl =>
    have hres : findClosestFixture target fixtures = some c.2 := by
      simp only [findClosestFixture, hempty, Bool.false_eq_true, if_false,
        hsorted, List.head?_cons, Option.map_some']
    have hcmem : c ∈ fixtures.filterMap
        (fun f => f.date.map fun d => ((d - target).natAbs, f)) := by
      have hmem : c ∈ (fixtures.filterMap
          (fun f => f.date.map fun d => ((d - target).natAbs, f))).mergeSort
          (fun a b => decide (a.1 ≤ b.1)) := by
        rw [hsorted]; exact List.mem_cons_self c tl
      exact List.mem_mergeSort.mp hmem
    obtain ⟨g, hg, hmap⟩ := List.mem_filterMap.mp hcmem
    obtain ⟨e0, hge, hc_eq⟩ := Option.map_eq_some'.mp hmap
    have hfst : (e0 - target).natAbs = c.1 := by rw [← hc_eq]
    refine ⟨c.2, e0, hres, ?_, ?_, ?_⟩
    · rw [← hc_eq]; exact hg
    · rw [← hc_eq]; exact hge
    · intro g' e' hg' hge'
      have hcand' : ((e' - target).natAbs, g') ∈ fixtures.filterMap
          (fun f => f.date.map fun d => ((d - target).natAbs, f)) :=
        List.mem_filterMap.mpr ⟨g', hg', by rw [hge']; rfl⟩
      have hmem' : ((e' - target).natAbs, g') ∈ (fixtures.filterMap
          (fun f => f.date.map fun d => ((d - target).natAbs, f))).mergeSort
          (fun a b => decide (a.1 ≤ b.1)) := List.mem_mergeSort.mpr hcand'
      rw [hsorted] at hmem'
      have hpair := pairwise_fst_le_mergeSort
        (fixtures.filterMap fun f => f.date.map fun d => ((d - target).natAbs, f))
      rw [hsorted] at hpair
      rcases List.mem_cons.mp hmem' with heq | htl
      · rw [hfst, ← heq]
      · rw [hfst]
        exact (List.pairwise_cons.mp hpair).1 _ htl

/-- Witness for C4: on a concrete directory of three fixtures (one with an
unparseable date), the matcher returns a minimal-distance fixture. -/
theorem find_closest_fixture_min_witness :
    ∃ fix d, findClosestFixture (3 : ℤ) demoFixtures = some fix ∧
      fix ∈ demoFixtures ∧ fix.date = some d ∧
      ∀ g e, g ∈ demoFixtures → g.date = some e →
        (d - 3).natAbs ≤ (e - 3).natAbs :=
  find_closest_fixture_min 3 demoFixtures
    ⟨{ name := "indices_2024-01-05", date := some 5, contents := 10 },
      by simp [demoFixtures], rfl⟩

/-- C5: when the live fetch raises (models `except Exception`), each
index/FX fetch function returns the fixture fallback: exactly the result of
the same call with `use_mock=True`, for any live outcome there. -/
theorem live_fetch_failure_falls_back {α : Type} (e : String)
    (live : Except String α) (fixtures : List (Fixture α)) (d : ℤ) :
    fetch_index_data (Except.error e) fixtures d false
      = fetch_index_data live fixtures d true
    ∧ fetch_intl_index_data (Except.error e) fixtures d false
      = fetch_intl_index_data live fixtures d true
    ∧ fetch_intl_fx_data (Except.error e) fixtures d false
      = fetch_intl_fx_data live fixtures d true :=
  ⟨rfl, rfl, rfl⟩

/-- C6: with no fixture file present, every fetch function raises
`FileNotFoundError` on its fixture path: the index/FX fetchers in mock mode
(the default), and the econ-calendar fetchers for either `use_mock`. -/
theorem missing_fixture_raises {α : Type} (d : ℤ) (live : Except String α)
    (m : Bool) :
    fetch_index_data live ([] : List (Fixture α)) d true
      = .fileNotFoundError ("No index fixture found near " ++ toString d)
    ∧ fetch_econ_calendar ([] : List (Fixture α)) d m
      = .fileNotFoundError ("No econ calendar fixture found near " ++ toString d)
    ∧ fetch_intl_index_data live ([] : List (Fixture α)) d true
      = .fileNotFoundError
          ("No international index fixture found near " ++ toString d)
    ∧ fetch_intl_fx_data live ([] : List (Fixture α)) d true
      = .fileNotFoundError ("No FX fixture found near " ++ toString d)
    ∧ fetch_intl_econ_calendar ([] : List (Fixture α)) d m
      = .fileNotFoundError
          ("No international econ calendar fixture found near " ++ toString d) :=
  ⟨rfl, rfl, rfl, rfl, rfl⟩

/-- C8: the econ-calendar fetchers ignore `use_mock` entirely: both modes
return the same fixture contents. -/
theorem econ_calendar_ignores_use_mock {α : Type} (fixtures : List (Fixture α))
    (d : ℤ) (m1 m2 : Bool) :
    fetch_econ_calendar fixtures d m1 = fetch_econ_calendar fixtures d m2
    ∧ fetch_intl_econ_calendar fixtures d m1
      = fetch_intl_econ_calendar fixtures d m2 :=
  ⟨rfl, rfl⟩

/-- An asset contributes no error line exactly when it is missing from one of
the sources or its relative difference is within tolerance (the claim's
formula, with `ℚ` division total at zero, matches the source's truthiness
guard). -/
theorem verifyEntry_eq_none_iff {primary : List (String × IndexInfo)}
    {secondary : String → Option ℚ} {tol : ℚ} {name : String} :
    verifyEntry primary secondary tol name = none ↔
      ¬ ∃ yf sec : ℚ, get_yf_close primary name = some yf ∧
        secondary name = some sec ∧ |yf - sec| / sec * 100 > tol := by
  unfold verifyEntry
  cases hyf : get_yf_close primary name with
  | none => simp
  | some yf =>
    cases hsec : secondary name with
    | none => simp
    | some sec =>
      by_cases hz : sec = 0
      · subst hz
        simp [div_zero, ite_eq_right_iff]
      · simp [hz, ite_eq_right_iff]

/-- The `errors` list is empty exactly when no asset from the fixed universe
is present in both sources with an out-of-tolerance difference. -/
theorem verifyErrors_eq_nil_iff {primary : List (String × IndexInfo)}
    {secondary : String → Option ℚ} {tol : ℚ} :
    verifyErrors primary secondary tol = [] ↔
      ¬ ∃ name ∈ allAssets, ∃ yf sec : ℚ,
        get_yf_close primary name = some yf ∧ secondary name = some sec ∧
        |yf - sec| / sec * 100 > tol := by
  unfold verifyErrors
  rw [List.filterMap_eq_nil_iff]
  constructor
  · rintro h ⟨name, hmem, yf, sec, hyf, hsec, hgt⟩
    have hnone := h name hmem
    rw [verifyEntry_eq_none_iff] at hnone
    exact hnone ⟨yf, sec, hyf, hsec, hgt⟩
  · intro h name hmem
    rw [verifyEntry_eq_none_iff]
    rintro ⟨yf, sec, hyf, hsec, hgt⟩
    exact h ⟨name, hmem, yf, sec, hyf, hsec, hgt⟩

/-- C2: `verify_prices` raises `PriceDiscrepancyError` if and only if some
asset present in both sources (within the fixed FRED/Stooq asset universe)
satisfies `abs(yf - sec) / sec * 100 > tolerance`; otherwise it returns
normally (`None`). -/
theorem verify_prices_raises_iff (primary : List (String × IndexInfo))
    (secondary : String → Option ℚ) (tolerance_pct : ℚ) :
    ((∃ err, verify_prices primary secondary tolerance_pct
        = Except.error err) ↔
      ∃ name ∈ allAssets, ∃ yf sec : ℚ,
        get_yf_close primary name = some yf ∧ secondary name = some sec ∧
        |yf - sec| / sec * 100 > tolerance_pct)
    ∧ (verify_prices primary secondary tolerance_pct = Except.ok () ↔
      ¬ ∃ name ∈ allAssets, ∃ yf sec : ℚ,
        get_yf_close primary name = some yf ∧ secondary name = some sec ∧
        |yf - sec| / sec * 100 > tolerance_pct) := by
  constructor
  · constructor
    · rintro ⟨err, herr⟩
      by_contra hno
      have hnil := verifyErrors_eq_nil_iff.mpr hno
      unfold verify_prices at herr
      rw [hnil] at herr
      simp at herr
    · intro hex
      have hne : verifyErrors primary secondary tolerance_pct ≠ [] :=
        fun hnil => (verifyErrors_eq_nil_iff.mp hnil) hex
      cases hE : verifyErrors primary secondary tolerance_pct with
      | nil => exact absurd hE hne
      | cons a as =>
        unfold verify_prices
        rw [hE]
        exact ⟨_, rfl⟩
  · constructor
    · intro hok
      cases hE : verifyErrors primary secondary tolerance_pct with
      | nil => exact verifyErrors_eq_nil_iff.mp hE
      | cons a as =>
        unfold verify_prices at hok
        rw [hE] at hok
        simp at hok
    · intro hno
      have hnil := verifyErrors_eq_nil_iff.mpr hno
      unfold verify_prices
      rw [hnil]
      rfl

/-- Witness for C2: a concrete 10% discrepancy on Gold with a 2% tolerance
makes `verify_prices` raise. -/
theorem verify_prices_raises_iff_witness :
    ∃ err, verify_prices demoPrimary demoSecondary 2 = Except.error err :=
  (verify_prices_raises_iff demoPrimary demoSecondary 2).1.mpr
    ⟨"Gold", by simp [allAssets, FRED_MAP, STOOQ_MAP], 110, 100,
      rfl, rfl, by norm_num⟩

/-- C7: narrative and positioning-tip generation are deterministic: the
functions of the shallow embedding are pure, as the source reads no clock,
randomness or global state, so equal inputs give equal outputs. -/
theorem generation_deterministic (index_data : List IndexPerf)
    (intl_index : List IntlIndexPerf) (fx_data : List FxPerf) (econ : Econ) :
    generate_narrative index_data econ = generate_narrative index_data econ
    ∧ generate_positioning_tips econ index_data
      = generate_positioning_tips econ index_data
    ∧ generate_intl_narrative intl_index fx_data econ
      = generate_intl_narrative intl_index fx_data econ
    ∧ generate_intl_positioning_tips econ intl_index fx_data
      = generate_intl_positioning_tips econ intl_index fx_data :=
  ⟨rfl, rfl, rfl, rfl⟩

/-- If no tip fired, a fallback tip is appended, so the result always has at
least one element. -/
theorem length_fallback {l : List String} (x : String) :
    1 ≤ (if l.isEmpty then [x] else l).length := by
  cases l with
  | nil => simp
  | cons a as => simp

/-- C9: `generate_positioning_tips` and `generate_intl_positioning_tips`
always return a non-empty list. -/
theorem positioning_tips_nonempty (econ : Econ) (index_data : List IndexPerf)
    (intl_index : List IntlIndexPerf) (fx_data : List FxPerf) :
    1 ≤ (generate_positioning_tips econ index_data).length
    ∧ 1 ≤ (generate_intl_positioning_tips econ intl_index fx_data).length := by
  constructor
  · simp only [generate_positioning_tips]
    exact length_fallback _
  · simp only [generate_intl_positioning_tips]
    exact length_fallback _
